import Mathlib

set_option linter.unusedVariables false

namespace LegalSummarizer

/-!
Verification of the Legal Summarizer analysis pipeline and of its
Next.js client handlers.  The backend orchestration pipeline is present in
the repository only as its documented contract (README service
documentation); it is modelled here from that contract.  The client
handlers (`agentResult`, `uploadVideo`, `handleSignup`) are embedded
directly from the frontend source.
-/

/-! ## Identity Verifier -/

/-- Modelled from the spec: the Identity Verifier's auth failure codes
(`verify(credential) -> Identity | AuthError`); any failure returns one of
`MISSING_CREDENTIAL`, `INVALID_SIGNATURE`, `EXPIRED`, `MISSING_CLAIM`.
The verifier implementation is not in the source tree. -/
inductive AuthError
  | MISSING_CREDENTIAL
  | INVALID_SIGNATURE
  | EXPIRED
  | MISSING_CLAIM
deriving DecidableEq, Repr

/-- Modelled from the spec: a bearer credential as seen by the verifier —
whether it is present, whether its signature checks against the issuer's
keys, whether it is expired, and the identity claim it carries (the
README requires a valid `email` claim). -/
structure Credential where
  present : Bool
  signatureValid : Bool
  expired : Bool
  claim : Option String
deriving DecidableEq, Repr

/-- Modelled from the spec: `verify(credential) -> Identity | AuthError`.
Checks, in order: credential present, signature validity, not-expired,
required identity claim present. -/
def verify (c : Credential) : Except AuthError String :=
  if !c.present then .error .MISSING_CREDENTIAL
  else if !c.signatureValid then .error .INVALID_SIGNATURE
  else if c.expired then .error .EXPIRED
  else
    match c.claim with
    | none => .error .MISSING_CLAIM
    | some idn => .ok idn

/-! ## Validator -/

def MAX_KEY_LENGTH : Nat := 500

def MAX_OBJECT_SIZE : Nat := 50 * 1024 * 1024

def MIN_CONTENT_LENGTH : Nat := 50

/-- Modelled from the spec: rule identifiers for the Validator's five
short-circuiting rules (file-key shape, extension, path traversal,
object size, extracted-content length). -/
inductive ValidationRule
  | INVALID_KEY
  | INVALID_EXTENSION
  | PATH_TRAVERSAL
  | FILE_TOO_LARGE
  | INSUFFICIENT_CONTENT
deriving DecidableEq, Repr

/-- Auxiliary infix test on character lists: does `pat` occur as a
contiguous run inside the list? -/
def infixAux (pat : List Char) : List Char → Bool
  | [] => pat.isEmpty
  | c :: rest => pat.isPrefixOf (c :: rest) || infixAux pat rest

/-- Substring test: `containsSub s pat` holds when `pat` occurs as a
substring of `s`. -/
def containsSub (s pat : String) : Bool :=
  infixAux pat.data s.data

/-- Case-insensitive check that the file key's extension is `.pdf`:
the key, lowered character-wise, ends with `.pdf`. -/
def endsWithPdf (s : String) : Bool :=
  List.isSuffixOf ".pdf".data (s.data.map Char.toLower)

/-- Modelled from the spec: the data the Validator judges — the
caller-supplied file reference, the object's size from storage metadata,
and the length of the text extracted from it. -/
structure ValidationInput where
  fileKey : String
  objectSize : Nat
  extractedLen : Nat
deriving DecidableEq, Repr

/-- Modelled from the spec: `validate(fileReference) -> ValidationOutcome`,
rules in order, short-circuiting on first failure:
1. non-empty and ≤ 500 chars; 2. extension `.pdf` (case-insensitive);
3. no `..`, `/` or `\` substrings; 4. object ≤ 50 MB;
5. extracted text ≥ 50 characters.  `none` means the input is valid. -/
def validate (v : ValidationInput) : Option ValidationRule :=
  if v.fileKey.length = 0 || v.fileKey.length > MAX_KEY_LENGTH then
    some .INVALID_KEY
  else if !(endsWithPdf v.fileKey) then
    some .INVALID_EXTENSION
  else if containsSub v.fileKey ".." || containsSub v.fileKey "/"
      || containsSub v.fileKey "\\" then
    some .PATH_TRAVERSAL
  else if v.objectSize > MAX_OBJECT_SIZE then
    some .FILE_TOO_LARGE
  else if v.extractedLen < MIN_CONTENT_LENGTH then
    some .INSUFFICIENT_CONTENT
  else
    none

/-! ## Analysis data model -/

/-- Modelled from the spec: an AnalysisResult is a verdict text, the
matched statutory references and a generation timestamp; immutable once
produced. -/
structure AnalysisResult where
  verdict : String
  matchedRefs : List String
  generatedAt : Nat
deriving DecidableEq, Repr

/-- Modelled from the spec: a CacheEntry is the fingerprint's result
payload together with its creation timestamp and TTL. -/
structure CacheEntry where
  result : AnalysisResult
  createdAt : Nat
  ttl : Nat
deriving DecidableEq, Repr

/-- Modelled from the spec: a HistoryRecord is the caller identity, the
file reference, the analysis result and a timestamp; append-only. -/
structure HistoryRecord where
  identity : String
  fileKey : String
  result : AnalysisResult
  timestamp : Nat
deriving DecidableEq, Repr

/-- Modelled from the spec: the fingerprint is a deterministic key derived
from the FileReference alone (the spec assumes file-key-based
fingerprinting). -/
def fingerprint (fileKey : String) : String := fileKey

/-! ## Cache Store -/

/-- The cache is a fingerprint-keyed association list; `cacheStore`
replaces any previous entry for the fingerprint. -/
def cacheFind (cache : List (String × CacheEntry)) (fp : String) :
    Option CacheEntry :=
  match cache with
  | [] => none
  | (k, e) :: rest => if k = fp then some e else cacheFind rest fp

/-- Modelled from the spec: `lookup(fingerprint) -> CacheEntry | miss`;
entries older than TTL are treated as a miss (lazy expiry). -/
def cacheLookup (cache : List (String × CacheEntry)) (fp : String)
    (now : Nat) : Option CacheEntry :=
  match cacheFind cache fp with
  | none => none
  | some e => if now ≤ e.createdAt + e.ttl then some e else none

/-- Modelled from the spec: `store(fingerprint, result, ttl)`;
last-writer-wins replacement of the entry for the fingerprint. -/
def cacheStore (cache : List (String × CacheEntry)) (fp : String)
    (r : AnalysisResult) (now ttl : Nat) : List (String × CacheEntry) :=
  (fp, ⟨r, now, ttl⟩) :: cache.filter (fun p => p.1 ≠ fp)

/-! ## Analysis Worker -/

/-- Modelled from the spec: terminal failure reasons of the worker state
machine (`FAILED(EXTRACTION_ERROR)`, `FAILED(INTERNAL_ERROR)`,
`FAILED(UPSTREAM_UNAVAILABLE)`). -/
inductive FailReason
  | EXTRACTION_ERROR
  | INTERNAL_ERROR
  | UPSTREAM_UNAVAILABLE
deriving DecidableEq, Repr

/-- Modelled from the spec: the terminal state of an AnalysisJob —
`COMPLETE` with its result, or `FAILED(reason)`. -/
inductive JobOutcome
  | COMPLETE (r : AnalysisResult)
  | FAILED (reason : FailReason)
deriving DecidableEq, Repr

/-- How many calls the pipeline made to each external capability during
one request: text extraction, statutory matching, AI summarization. -/
structure CallCounts where
  extraction : Nat
  matching : Nat
  ai : Nat
deriving DecidableEq, Repr

/-- Modelled from the spec: the external capabilities consumed by the
worker.  `extract` returns `none` on extraction failure (no retry),
`matchRefs` returns `none` on a matching defect, and `summarize` is
indexed by the attempt number (1-based) and returns `none` on a
transient failure of that attempt.  `ttl` is the cache TTL the service
is configured with. -/
structure Env where
  extract : String → Option String
  matchRefs : String → Option (List String)
  summarize : Nat → String → List String → Option String
  ttl : Nat

def MAX_AI_ATTEMPTS : Nat := 3

/-- Modelled from the spec: the `SUMMARIZING` stage retries transient
failures up to a fixed bound of 3 attempts; returns the verdict (if any
attempt succeeded) and the number of attempts consumed. -/
def runSummarizing (env : Env) (text : String) (refs : List String) :
    Option String × Nat :=
  match env.summarize 1 text refs with
  | some v => (some v, 1)
  | none =>
    match env.summarize 2 text refs with
    | some v => (some v, 2)
    | none =>
      match env.summarize 3 text refs with
      | some v => (some v, 3)
      | none => (none, 3)

/-- Modelled from the spec: one worker execution,
`EXTRACTING → MATCHING → SUMMARIZING → COMPLETE` or
any stage → `FAILED(reason)`, together with the capability call counts it
incurred. -/
def runWorker (env : Env) (fileKey : String) (now : Nat) :
    JobOutcome × CallCounts :=
  match env.extract fileKey with
  | none => (.FAILED .EXTRACTION_ERROR, ⟨1, 0, 0⟩)
  | some text =>
    match env.matchRefs text with
    | none => (.FAILED .INTERNAL_ERROR, ⟨1, 1, 0⟩)
    | some refs =>
      match runSummarizing env text refs with
      | (some v, attempts) => (.COMPLETE ⟨v, refs, now⟩, ⟨1, 1, attempts⟩)
      | (none, attempts) => (.FAILED .UPSTREAM_UNAVAILABLE, ⟨1, 1, attempts⟩)

/-! ## Orchestrator (status endpoint) -/

/-- Modelled from the spec: stable machine-readable error codes of the
error envelope, `code ∈ VALIDATION_ERROR, HTTP_EXCEPTION,
INTERNAL_ERROR`. -/
inductive ErrorCode
  | VALIDATION_ERROR
  | HTTP_EXCEPTION
  | INTERNAL_ERROR
deriving DecidableEq, Repr

/-- Modelled from the spec: the body of a status response — on success
`(response, cache)`, otherwise the error envelope's code. -/
inductive ResponseBody
  | success (response : String) (cache : Bool)
  | failure (code : ErrorCode)
deriving DecidableEq, Repr

/-- An HTTP response of the status endpoint. -/
structure HttpResponse where
  status : Nat
  body : ResponseBody
deriving DecidableEq, Repr

/-- Modelled from the spec: the server's process-wide state — the Cache
Store's entries and the History Store's records (most recent first). -/
structure ServerState where
  cache : List (String × CacheEntry)
  history : List HistoryRecord
deriving DecidableEq, Repr

/-- Modelled from the spec: a status request — the bearer credential and
the caller's most recent uploaded file reference together with the
storage metadata and extracted-content length the Validator judges. -/
structure StatusRequest where
  credential : Credential
  fileKey : String
  objectSize : Nat
  extractedLen : Nat
deriving DecidableEq, Repr

def StatusRequest.validationInput (req : StatusRequest) : ValidationInput :=
  ⟨req.fileKey, req.objectSize, req.extractedLen⟩

/-- The HTTP status the spec's table assigns to a validation failure:
413 for the object-size rule, 422 otherwise. -/
def validationStatus (r : ValidationRule) : Nat :=
  match r with
  | .FILE_TOO_LARGE => 413
  | _ => 422

/-- Modelled from the spec: the Orchestrator's request lifecycle —
identity verification (fail fast), validation (fail fast), fingerprint,
cache lookup (hit → respond with `cache = true`), otherwise dispatch one
worker execution; on `COMPLETE` the result is written to Cache Store and
History Store and the response carries `cache = false`; on `FAILED` the
failure maps to a 500 `INTERNAL_ERROR` and the state is untouched.
Returns the response, the post-state and the capability call counts. -/
def handleStatus (st : ServerState) (env : Env) (req : StatusRequest)
    (now : Nat) : HttpResponse × ServerState × CallCounts :=
  match verify req.credential with
  | .error _ => (⟨401, .failure .HTTP_EXCEPTION⟩, st, ⟨0, 0, 0⟩)
  | .ok idn =>
    match validate req.validationInput with
    | some rule =>
      (⟨validationStatus rule, .failure .VALIDATION_ERROR⟩, st, ⟨0, 0, 0⟩)
    | none =>
      let fp := fingerprint req.fileKey
      match cacheLookup st.cache fp now with
      | some e => (⟨200, .success e.result.verdict true⟩, st, ⟨0, 0, 0⟩)
      | none =>
        match runWorker env req.fileKey now with
        | (.COMPLETE r, counts) =>
          (⟨200, .success r.verdict false⟩,
           ⟨cacheStore st.cache fp r now env.ttl,
            ⟨idn, req.fileKey, r, now⟩ :: st.history⟩,
           counts)
        | (.FAILED _, counts) =>
          (⟨500, .failure .INTERNAL_ERROR⟩, st, counts)

/-! ## Job Dispatcher -/

/-- Modelled from the spec: the Job Dispatcher's shared state — a
fingerprint-keyed registry of in-flight jobs, the terminal outcomes of
the jobs spawned so far (one entry per worker execution), a fresh-id
counter and the running total of AI summarization calls made by the
workers it spawned. -/
structure Dispatcher where
  inflight : List (String × Nat)
  jobs : List (Nat × JobOutcome)
  nextId : Nat
  totalAi : Nat
deriving DecidableEq, Repr

/-- Association lookup in the in-flight registry. -/
def regFind (reg : List (String × Nat)) (fp : String) : Option Nat :=
  match reg with
  | [] => none
  | (k, j) :: rest => if k = fp then some j else regFind rest fp

/-- Association lookup in the job-outcome table. -/
def jobFind (jobs : List (Nat × JobOutcome)) (j : Nat) : Option JobOutcome :=
  match jobs with
  | [] => none
  | (k, o) :: rest => if k = j then some o else jobFind rest j

/-- Modelled from the spec: `submit(fingerprint, fileReference) ->
JobHandle` under the dedup invariant — a single check-then-insert
critical section: if a job for the fingerprint is already in flight its
handle is returned unchanged; otherwise a fresh job is registered and
exactly one worker execution is performed for it. -/
def submit (env : Env) (now : Nat) (d : Dispatcher) (fp : String) :
    Nat × Dispatcher :=
  match regFind d.inflight fp with
  | some j => (j, d)
  | none =>
    (d.nextId,
     { inflight := (fp, d.nextId) :: d.inflight,
       jobs := (d.nextId, (runWorker env fp now).1) :: d.jobs,
       nextId := d.nextId + 1,
       totalAi := d.totalAi + (runWorker env fp now).2.ai })

/-- Modelled from the spec: a waiter observes its job's terminal
outcome through the registry handle. -/
def await (d : Dispatcher) (j : Nat) : Option JobOutcome :=
  jobFind d.jobs j

/-- The serialized interleaving of a batch of submits against the shared
dispatcher state (the spec serializes the check-then-insert critical
section); returns the handle each caller obtained. -/
def submitAll (env : Env) (now : Nat) : List String → Dispatcher →
    List Nat × Dispatcher
  | [], d => ([], d)
  | fp :: rest, d =>
    let (j, d1) := submit env now d fp
    let (js, d2) := submitAll env now rest d1
    (j :: js, d2)

/-! ## Frontend client handlers (embedded from the source) -/

/-- A thrown JavaScript error, carrying its optional `message`. -/
structure JsError where
  message : Option String
deriving DecidableEq, Repr

/-- The component state of the dashboard `ChatPage`
(`src/unnamed/part_000`): the chosen file, the three loading flags, the
displayed result, the history list and the history-modal flag. -/
structure ChatState where
  file : Option String
  loadingUpload : Bool
  loadingAgent : Bool
  loadingHistory : Bool
  result : Option String
  history : List String
  showHistory : Bool
deriving DecidableEq, Repr

/-- The outcomes of the awaited steps inside `agentResult`: fetching the
auth session, the `GET /status` fetch, and parsing the response JSON
(whose `response` field may be absent). -/
structure AgentEnv where
  fetchAuthSession : Except JsError (Option String)
  fetchStatus : Except JsError Unit
  parseJson : Except JsError (Option String)

/-- Embedded from `src/unnamed/part_000`, `agentResult`: inside `try` it
sets `loadingAgent := true` and `result := null`, awaits the session, the
`/status` fetch and the JSON parse, then sets `result := data.response`;
the `catch` branch only logs; the `finally` branch sets
`loadingAgent := false`. -/
def agentResult (env : AgentEnv) (s : ChatState) : ChatState :=
  let s1 := { s with loadingAgent := true, result := none }
  let afterTry :=
    match env.fetchAuthSession with
    | .error _ => s1
    | .ok _token =>
      match env.fetchStatus with
      | .error _ => s1
      | .ok _ =>
        match env.parseJson with
        | .error _ => s1
        | .ok data => { s1 with result := data }
  { afterTry with loadingAgent := false }

/-- The outcomes of the awaited steps inside `uploadVideo`: the auth
session, the `POST /api/get-upload-url` fetch, parsing its JSON for
`upload_url`, and the `PUT` of the file to that URL. -/
structure UploadEnv where
  fetchAuthSession : Except JsError (Option String)
  fetchUploadUrl : Except JsError Unit
  parseUploadUrl : Except JsError String
  putFile : Except JsError Unit

/-- The message `alert(err)` shows for a thrown error. -/
def errorAlert (e : JsError) : String :=
  "Error: " ++ e.message.getD ""

/-- Embedded from `src/unnamed/part_000`, `uploadVideo`: if no file is
chosen it alerts and returns at once; otherwise inside `try` it sets
`loadingUpload := true` and `result := null`, awaits the session, the
upload-URL fetch, its JSON parse and the `PUT` upload, then alerts
success; the `catch` branch alerts the error; the `finally` branch sets
`loadingUpload := false`.  Returns the new state, the number of network
requests issued, and the alerts shown. -/
def uploadVideo (env : UploadEnv) (s : ChatState) :
    ChatState × Nat × List String :=
  match s.file with
  | none => (s, 0, ["Please choose a file first."])
  | some _file =>
    let s1 := { s with loadingUpload := true, result := none }
    match env.fetchAuthSession with
    | .error e => ({ s1 with loadingUpload := false }, 0, [errorAlert e])
    | .ok _token =>
      match env.fetchUploadUrl with
      | .error e => ({ s1 with loadingUpload := false }, 1, [errorAlert e])
      | .ok _ =>
        match env.parseUploadUrl with
        | .error e => ({ s1 with loadingUpload := false }, 1, [errorAlert e])
        | .ok _url =>
          match env.putFile with
          | .error e => ({ s1 with loadingUpload := false }, 2, [errorAlert e])
          | .ok _ =>
            ({ s1 with loadingUpload := false }, 2, ["Uploaded successfully!"])

/-- The two steps of the signup page (`src/unnamed/part_002`). -/
inductive SignupStep
  | signup
  | confirm
deriving DecidableEq, Repr

/-- The component state of `SignupPage` (`src/unnamed/part_002`). -/
structure SignupState where
  email : String
  password : String
  code : String
  step : SignupStep
deriving DecidableEq, Repr

/-- Embedded from `src/unnamed/part_002`, `handleSignup`: inside `try` it
awaits `signUp` and then sets `step := "confirm"`; the `catch` branch
alerts `err.message || "Error signing up"` and leaves the state alone.
Returns the new state and the alerts shown. -/
def handleSignup (signUpOutcome : Except JsError Unit) (s : SignupState) :
    SignupState × List String :=
  match signUpOutcome with
  | .ok _ => ({ s with step := .confirm }, [])
  | .error e => (s, [e.message.getD "Error signing up"])

/-! ## Concrete fixtures used by witnesses -/

/-- A 1200-character extracted text. -/
def demoText : String := String.mk (List.replicate 1200 'a')

/-- A well-formed credential with a valid signature and an email claim. -/
def demoCredential : Credential := ⟨true, true, false, some "user@example.com"⟩

/-- An environment whose capabilities all succeed on the first attempt. -/
def demoEnv : Env :=
  { extract := fun _ => some demoText
    matchRefs := fun _ => some ["Article 14"]
    summarize := fun _ _ _ => some "Verdict: the agreement is lawful."
    ttl := 3600 }

/-- An environment whose AI summarization fails on every attempt. -/
def failEnv : Env :=
  { extract := fun _ => some demoText
    matchRefs := fun _ => some ["Article 14"]
    summarize := fun _ _ _ => none
    ttl := 3600 }

/-- An environment whose AI summarization fails on attempts 1 and 2 and
succeeds on attempt 3. -/
def retryEnv : Env :=
  { extract := fun _ => some demoText
    matchRefs := fun _ => some ["Article 14"]
    summarize := fun n _ _ =>
      if n = 3 then some "Verdict reached on the third attempt." else none
    ttl := 3600 }

/-- A fresh server state: empty cache, empty history. -/
def emptyState : ServerState := ⟨[], []⟩

/-- A status request for the given file key, object size 1 MB, extracted
content of 1200 characters, under the well-formed credential. -/
def demoReq (k : String) : StatusRequest := ⟨demoCredential, k, 1048576, 1200⟩

/-- A chat-page state with no file chosen. -/
def noFileState : ChatState := ⟨none, false, false, false, none, [], false⟩

/-- An agent environment whose status fetch throws. -/
def failingAgentEnv : AgentEnv :=
  ⟨.ok (some "token"), .error ⟨some "network down"⟩, .ok (some "ignored")⟩

/-- An upload environment whose steps all succeed. -/
def demoUploadEnv : UploadEnv :=
  ⟨.ok (some "token"), .ok (), .ok "https://bucket/upload", .ok ()⟩

/-! ## Client handler claims -/

/-- Claim C8: every execution of `agentResult`, whether the `/status`
fetch succeeds or throws, terminates with `loadingAgent = false`; and on
any failure path (session fetch, status fetch or JSON parsing throws)
the displayed result is `none`, since the result is cleared before the
request and never assigned in the catch branch. -/
theorem agentResult_clears_loading_and_null_on_failure
    (env : AgentEnv) (s : ChatState) :
    (agentResult env s).loadingAgent = false ∧
    (((∃ e, env.fetchAuthSession = .error e) ∨
      (∃ e, env.fetchStatus = .error e) ∨
      (∃ e, env.parseJson = .error e)) →
      (agentResult env s).result = none) := by
  rcases h1 : env.fetchAuthSession with e1 | t <;>
    rcases h2 : env.fetchStatus with e2 | u <;>
      rcases h3 : env.parseJson with e3 | d <;>
        simp [agentResult, h1, h2, h3]

/-- Witness for claim C8: with a status fetch that throws, the handler
ends with the loading flag cleared and the result still `none`. -/
theorem agentResult_failure_witness :
    (agentResult failingAgentEnv noFileState).loadingAgent = false ∧
    (agentResult failingAgentEnv noFileState).result = none :=
  ⟨(agentResult_clears_loading_and_null_on_failure failingAgentEnv
      noFileState).1,
   (agentResult_clears_loading_and_null_on_failure failingAgentEnv
      noFileState).2 (Or.inr (Or.inl ⟨⟨some "network down"⟩, rfl⟩))⟩

/-- Claim C9: when no file is selected, `uploadVideo` returns immediately
after alerting the user, performs no network request, and leaves the
whole component state unchanged. -/
theorem uploadVideo_no_file_noop (env : UploadEnv) (s : ChatState)
    (h : s.file = none) :
    uploadVideo env s = (s, 0, ["Please choose a file first."]) := by
  simp [uploadVideo, h]

/-- Witness for claim C9: the no-file state is returned untouched with
zero requests and only the choose-a-file alert. -/
theorem uploadVideo_no_file_witness :
    noFileState.file = none ∧
    uploadVideo demoUploadEnv noFileState =
      (noFileState, 0, ["Please choose a file first."]) :=
  ⟨rfl, uploadVideo_no_file_noop demoUploadEnv noFileState rfl⟩

/-- Claim C10: the signup page transitions from step `signup` to step
`confirm` exactly on a successful `signUp`; if `signUp` throws, the
state is unchanged (so the step remains `signup`). -/
theorem handleSignup_confirm_only_on_success
    (out : Except JsError Unit) (s : SignupState) (hs : s.step = .signup) :
    (∀ u, out = .ok u → (handleSignup out s).1.step = .confirm) ∧
    (∀ e, out = .error e →
      handleSignup out s = (s, [e.message.getD "Error signing up"])) ∧
    ((handleSignup out s).1.step = .confirm → ∃ u, out = .ok u) := by
  cases out <;> simp [handleSignup, hs]

/-- Witness for claim C10: a throwing `signUp` leaves the state in step
`signup`, and a successful one moves it to `confirm`. -/
theorem handleSignup_witness :
    handleSignup (.error ⟨some "boom"⟩) ⟨"", "", "", .signup⟩ =
      (⟨"", "", "", .signup⟩, ["boom"]) ∧
    (handleSignup (.ok ()) ⟨"", "", "", .signup⟩).1.step = .confirm :=
  ⟨(handleSignup_confirm_only_on_success (.error ⟨some "boom"⟩)
      ⟨"", "", "", .signup⟩ rfl).2.1 ⟨some "boom"⟩ rfl,
   (handleSignup_confirm_only_on_success (.ok ())
      ⟨"", "", "", .signup⟩ rfl).1 () rfl⟩

/-! ## Orchestrator claims -/

/-- Claim C4: a request whose credential fails verification is answered
with an auth error — the failing code is one of `MISSING_CREDENTIAL`,
`INVALID_SIGNATURE`, `EXPIRED`, `MISSING_CLAIM` — regardless of the
FileReference: the verifier runs before the Validator, the cache lookup
and any dispatch, so the state is unchanged and no capability is
called. -/
theorem handleStatus_auth_fails_fast
    (st : ServerState) (env : Env) (req : StatusRequest) (now : Nat)
    (a : AuthError) (h : verify req.credential = .error a) :
    (a = .MISSING_CREDENTIAL ∨ a = .INVALID_SIGNATURE ∨ a = .EXPIRED ∨
     a = .MISSING_CLAIM) ∧
    handleStatus st env req now =
      (⟨401, .failure .HTTP_EXCEPTION⟩, st, ⟨0, 0, 0⟩) := by
  refine ⟨?_, ?_⟩
  · cases a <;> simp
  · simp [handleStatus, h]

/-- Witness for claim C4: an expired credential on a request whose file
key is itself invalid still yields the auth error, touching nothing. -/
theorem handleStatus_auth_witness :
    verify ⟨true, true, true, some "user@example.com"⟩ = .error .EXPIRED ∧
    handleStatus emptyState demoEnv
        ⟨⟨true, true, true, some "user@example.com"⟩, "../../etc/passwd", 0, 0⟩
        0 =
      (⟨401, .failure .HTTP_EXCEPTION⟩, emptyState, ⟨0, 0, 0⟩) :=
  ⟨rfl,
   (handleStatus_auth_fails_fast emptyState demoEnv
      ⟨⟨true, true, true, some "user@example.com"⟩, "../../etc/passwd", 0, 0⟩
      0 .EXPIRED rfl).2⟩

/-- Claim C3: a request violating any Validator rule is answered with
`VALIDATION_ERROR` (HTTP 422, or 413 for the object-size rule) while the
server state is unchanged and zero calls are made to the extraction,
matching or AI capabilities. -/
theorem handleStatus_validation_fails_fast
    (st : ServerState) (env : Env) (req : StatusRequest) (now : Nat)
    (idn : String) (rule : ValidationRule)
    (hAuth : verify req.credential = .ok idn)
    (hVal : validate req.validationInput = some rule) :
    handleStatus st env req now =
      (⟨validationStatus rule, .failure .VALIDATION_ERROR⟩, st, ⟨0, 0, 0⟩) := by
  simp [handleStatus, hAuth, hVal]

/-- Witness for claim C3: the empty file key fails rule 1 and the request
is rejected with 422 and no capability calls. -/
theorem handleStatus_validation_witness :
    verify demoCredential = .ok "user@example.com" ∧
    validate ⟨"", 0, 0⟩ = some .INVALID_KEY ∧
    handleStatus emptyState demoEnv ⟨demoCredential, "", 0, 0⟩ 0 =
      (⟨422, .failure .VALIDATION_ERROR⟩, emptyState, ⟨0, 0, 0⟩) :=
  ⟨rfl, rfl,
   handleStatus_validation_fails_fast emptyState demoEnv
     ⟨demoCredential, "", 0, 0⟩ 0 "user@example.com" .INVALID_KEY rfl rfl⟩

/-- Claim C2: for a valid request whose worker run completes, the first
call answers with `cache = false`, and a second call within the TTL
answers with `cache = true`, the identical verdict payload, and zero
calls to any capability. -/
theorem handleStatus_cache_idempotent
    (st : ServerState) (env : Env) (req : StatusRequest)
    (now1 now2 : Nat) (idn : String) (r : AnalysisResult) (c : CallCounts)
    (hAuth : verify req.credential = .ok idn)
    (hVal : validate req.validationInput = none)
    (hMiss : cacheLookup st.cache (fingerprint req.fileKey) now1 = none)
    (hRun : runWorker env req.fileKey now1 = (.COMPLETE r, c))
    (hTtl : now2 ≤ now1 + env.ttl) :
    (handleStatus st env req now1).1 = ⟨200, .success r.verdict false⟩ ∧
    (handleStatus (handleStatus st env req now1).2.1 env req now2).1 =
      ⟨200, .success r.verdict true⟩ ∧
    (handleStatus (handleStatus st env req now1).2.1 env req now2).2.2 =
      ⟨0, 0, 0⟩ := by
  have h1 : handleStatus st env req now1 =
      (⟨200, .success r.verdict false⟩,
       ⟨cacheStore st.cache (fingerprint req.fileKey) r now1 env.ttl,
        ⟨idn, req.fileKey, r, now1⟩ :: st.history⟩,
       c) := by
    simp [handleStatus, hAuth, hVal, hMiss, hRun]
  have h2 : cacheLookup
      (cacheStore st.cache (fingerprint req.fileKey) r now1 env.ttl)
      (fingerprint req.fileKey) now2 = some ⟨r, now1, env.ttl⟩ := by
    simp [cacheLookup, cacheStore, cacheFind, hTtl]
  refine ⟨by rw [h1], ?_, ?_⟩ <;> rw [h1] <;> simp [handleStatus, hAuth, hVal, h2]

/-- Witness for claim C2: the concrete valid request for `nda.pdf` is
answered from the worker on the first call and from the cache on the
second, with the same verdict. -/
theorem handleStatus_cache_witness :
    verify demoCredential = .ok "user@example.com" ∧
    validate (demoReq "nda.pdf").validationInput = none ∧
    cacheLookup emptyState.cache (fingerprint "nda.pdf") 0 = none ∧
    runWorker demoEnv "nda.pdf" 0 =
      (.COMPLETE ⟨"Verdict: the agreement is lawful.", ["Article 14"], 0⟩,
       ⟨1, 1, 1⟩) ∧
    5 ≤ 0 + demoEnv.ttl ∧
    (handleStatus emptyState demoEnv (demoReq "nda.pdf") 0).1 =
      ⟨200, .success "Verdict: the agreement is lawful." false⟩ ∧
    (handleStatus (handleStatus emptyState demoEnv (demoReq "nda.pdf") 0).2.1
        demoEnv (demoReq "nda.pdf") 5).1 =
      ⟨200, .success "Verdict: the agreement is lawful." true⟩ ∧
    (handleStatus (handleStatus emptyState demoEnv (demoReq "nda.pdf") 0).2.1
        demoEnv (demoReq "nda.pdf") 5).2.2 = ⟨0, 0, 0⟩ := by
  have h := handleStatus_cache_idempotent emptyState demoEnv
    (demoReq "nda.pdf") 0 5 "user@example.com"
    ⟨"Verdict: the agreement is lawful.", ["Article 14"], 0⟩ ⟨1, 1, 1⟩
    rfl rfl rfl rfl (by decide)
  exact ⟨rfl, rfl, rfl, rfl, by decide, h.1, h.2.1, h.2.2⟩

/-- Every worker run calls the extraction capability exactly once. -/
theorem runWorker_extraction_calls (env : Env) (k : String) (now : Nat) :
    (runWorker env k now).2.extraction = 1 := by
  rcases hx : env.extract k with _ | text
  · simp [runWorker, hx]
  · rcases hm : env.matchRefs text with _ | refs
    · simp [runWorker, hx, hm]
    · rcases hs : runSummarizing env text refs with ⟨v, attempts⟩
      cases v <;> simp [runWorker, hx, hm, hs]

/-- Claim C6: a job that reaches terminal state `FAILED` writes nothing —
the server state (cache and history) is unchanged, the fingerprint still
misses the cache, and the next request for the same fingerprint
re-attempts the pipeline, calling the extraction capability again. -/
theorem handleStatus_failed_not_cached
    (st : ServerState) (env : Env) (req : StatusRequest) (now : Nat)
    (idn : String) (reason : FailReason) (c : CallCounts)
    (hAuth : verify req.credential = .ok idn)
    (hVal : validate req.validationInput = none)
    (hMiss : cacheLookup st.cache (fingerprint req.fileKey) now = none)
    (hRun : runWorker env req.fileKey now = (.FAILED reason, c)) :
    (handleStatus st env req now).2.1 = st ∧
    cacheLookup (handleStatus st env req now).2.1.cache
      (fingerprint req.fileKey) now = none ∧
    (handleStatus (handleStatus st env req now).2.1 env req now).2.2.extraction
      = 1 := by
  have h1 : handleStatus st env req now =
      (⟨500, .failure .INTERNAL_ERROR⟩, st, c) := by
    simp [handleStatus, hAuth, hVal, hMiss, hRun]
  have hc : c.extraction = 1 := by
    have := runWorker_extraction_calls env req.fileKey now
    rw [hRun] at this
    exact this
  refine ⟨by rw [h1], by rw [h1]; exact hMiss, ?_⟩
  rw [h1]
  simp only [h1]
  exact hc

/-- Witness for claim C6: with every summarization attempt failing, the
failed run leaves the empty state empty, the fingerprint misses, and the
retry extracts again. -/
theorem handleStatus_failed_witness :
    verify demoCredential = .ok "user@example.com" ∧
    validate (demoReq "nda.pdf").validationInput = none ∧
    cacheLookup emptyState.cache (fingerprint "nda.pdf") 0 = none ∧
    runWorker failEnv "nda.pdf" 0 =
      (.FAILED .UPSTREAM_UNAVAILABLE, ⟨1, 1, 3⟩) ∧
    (handleStatus emptyState failEnv (demoReq "nda.pdf") 0).2.1 =
      emptyState ∧
    cacheLookup (handleStatus emptyState failEnv (demoReq "nda.pdf") 0).2.1.cache
      (fingerprint "nda.pdf") 0 = none ∧
    (handleStatus (handleStatus emptyState failEnv (demoReq "nda.pdf") 0).2.1
        failEnv (demoReq "nda.pdf") 0).2.2.extraction = 1 := by
  have h := handleStatus_failed_not_cached emptyState failEnv
    (demoReq "nda.pdf") 0 "user@example.com" .UPSTREAM_UNAVAILABLE
    ⟨1, 1, 3⟩ rfl rfl rfl rfl
  exact ⟨rfl, rfl, rfl, rfl, h.1, h.2.1, h.2.2⟩

/-- Claim C5: in the SUMMARIZING stage, transient failures on attempts 1
and 2 followed by success on attempt 3 end in `COMPLETE` and a 200
response with the verdict; all three attempts failing ends in
`FAILED(UPSTREAM_UNAVAILABLE)`, mapped to HTTP 500 `INTERNAL_ERROR`. -/
theorem summarizing_retry_bound
    (st : ServerState) (envA envB : Env) (req : StatusRequest) (now : Nat)
    (idn text v : String) (refs : List String)
    (hAuth : verify req.credential = .ok idn)
    (hVal : validate req.validationInput = none)
    (hMiss : cacheLookup st.cache (fingerprint req.fileKey) now = none)
    (hExA : envA.extract req.fileKey = some text)
    (hMatA : envA.matchRefs text = some refs)
    (hA1 : envA.summarize 1 text refs = none)
    (hA2 : envA.summarize 2 text refs = none)
    (hA3 : envA.summarize 3 text refs = some v)
    (hExB : envB.extract req.fileKey = some text)
    (hMatB : envB.matchRefs text = some refs)
    (hB1 : envB.summarize 1 text refs = none)
    (hB2 : envB.summarize 2 text refs = none)
    (hB3 : envB.summarize 3 text refs = none) :
    runWorker envA req.fileKey now = (.COMPLETE ⟨v, refs, now⟩, ⟨1, 1, 3⟩) ∧
    (handleStatus st envA req now).1 = ⟨200, .success v false⟩ ∧
    runWorker envB req.fileKey now =
      (.FAILED .UPSTREAM_UNAVAILABLE, ⟨1, 1, 3⟩) ∧
    (handleStatus st envB req now).1 = ⟨500, .failure .INTERNAL_ERROR⟩ := by
  have hwA : runWorker envA req.fileKey now =
      (.COMPLETE ⟨v, refs, now⟩, ⟨1, 1, 3⟩) := by
    simp [runWorker, runSummarizing, hExA, hMatA, hA1, hA2, hA3]
  have hwB : runWorker envB req.fileKey now =
      (.FAILED .UPSTREAM_UNAVAILABLE, ⟨1, 1, 3⟩) := by
    simp [runWorker, runSummarizing, hExB, hMatB, hB1, hB2, hB3]
  refine ⟨hwA, ?_, hwB, ?_⟩ <;>
    simp [handleStatus, hAuth, hVal, hMiss, hwA, hwB]

/-- Witness for claim C5: the environment succeeding only on the third
attempt completes with its verdict; the always-failing one is a 500. -/
theorem summarizing_retry_witness :
    verify demoCredential = .ok "user@example.com" ∧
    retryEnv.summarize 1 demoText ["Article 14"] = none ∧
    retryEnv.summarize 2 demoText ["Article 14"] = none ∧
    retryEnv.summarize 3 demoText ["Article 14"] =
      some "Verdict reached on the third attempt." ∧
    failEnv.summarize 3 demoText ["Article 14"] = none ∧
    runWorker retryEnv "nda.pdf" 0 =
      (.COMPLETE ⟨"Verdict reached on the third attempt.", ["Article 14"], 0⟩,
       ⟨1, 1, 3⟩) ∧
    (handleStatus emptyState retryEnv (demoReq "nda.pdf") 0).1 =
      ⟨200, .success "Verdict reached on the third attempt." false⟩ ∧
    runWorker failEnv "nda.pdf" 0 =
      (.FAILED .UPSTREAM_UNAVAILABLE, ⟨1, 1, 3⟩) ∧
    (handleStatus emptyState failEnv (demoReq "nda.pdf") 0).1 =
      ⟨500, .failure .INTERNAL_ERROR⟩ := by
  have h := summarizing_retry_bound emptyState retryEnv failEnv
    (demoReq "nda.pdf") 0 "user@example.com" demoText
    "Verdict reached on the third attempt." ["Article 14"]
    rfl rfl rfl rfl rfl rfl rfl rfl rfl rfl rfl rfl rfl
  exact ⟨rfl, rfl, rfl, rfl, rfl, h.1, h.2.1, h.2.2.1, h.2.2.2⟩

/-- A submit that finds the fingerprint in flight returns the existing
handle and leaves the dispatcher untouched. -/
theorem submit_inflight_hit (env : Env) (now : Nat) (d : Dispatcher)
    (fp : String) (j : Nat) (h : regFind d.inflight fp = some j) :
    submit env now d fp = (j, d) := by
  simp [submit, h]

/-- While a job for the fingerprint is in flight, any batch of further
submits returns its handle to every caller and changes nothing. -/
theorem submitAll_inflight_hit (env : Env) (now : Nat) (fp : String)
    (j : Nat) :
    ∀ (m : Nat) (d : Dispatcher), regFind d.inflight fp = some j →
      submitAll env now (List.replicate m fp) d = (List.replicate m j, d) := by
  intro m
  induction m with
  | zero => intro d h; simp [submitAll]
  | succ k ih =>
    intro d h
    rw [List.replicate_succ]
    simp only [submitAll, submit_inflight_hit env now d fp j h, ih d h]
    rw [List.replicate_succ]

/-- Claim C1: at most one job is in flight per fingerprint — for `n ≥ 2`
serialized submits of the same fingerprint with no job in flight, all
callers obtain the same handle, exactly one worker execution happens
(one new job record; the AI-call total grows by a single worker run's
calls), and every caller observes the same terminal outcome. -/
theorem dispatcher_dedup_single_execution
    (env : Env) (now : Nat) (d : Dispatcher) (fp : String) (n : Nat)
    (hn : 2 ≤ n) (hFree : regFind d.inflight fp = none) :
    (∀ j ∈ (submitAll env now (List.replicate n fp) d).1, j = d.nextId) ∧
    (submitAll env now (List.replicate n fp) d).2.jobs.length =
      d.jobs.length + 1 ∧
    (submitAll env now (List.replicate n fp) d).2.totalAi =
      d.totalAi + (runWorker env fp now).2.ai ∧
    (∀ j ∈ (submitAll env now (List.replicate n fp) d).1,
      await (submitAll env now (List.replicate n fp) d).2 j =
        some (runWorker env fp now).1) := by
  obtain ⟨k, rfl⟩ : ∃ k, n = k + 1 := ⟨n - 1, by omega⟩
  have hsub : submit env now d fp =
      (d.nextId,
       ⟨(fp, d.nextId) :: d.inflight,
        (d.nextId, (runWorker env fp now).1) :: d.jobs,
        d.nextId + 1,
        d.totalAi + (runWorker env fp now).2.ai⟩) := by
    simp [submit, hFree]
  have hreg : regFind ((fp, d.nextId) :: d.inflight) fp = some d.nextId := by
    simp [regFind]
  have hAll : submitAll env now (List.replicate (k + 1) fp) d =
      (d.nextId :: List.replicate k d.nextId,
       ⟨(fp, d.nextId) :: d.inflight,
        (d.nextId, (runWorker env fp now).1) :: d.jobs,
        d.nextId + 1,
        d.totalAi + (runWorker env fp now).2.ai⟩) := by
    rw [List.replicate_succ]
    simp only [submitAll, hsub]
    rw [submitAll_inflight_hit env now fp d.nextId k _ hreg]
  rw [hAll]
  refine ⟨?_, by simp, rfl, ?_⟩
  · intro j hj
    rcases List.mem_cons.mp hj with h | h
    · exact h
    · exact List.eq_of_mem_replicate h
  · intro j hj
    have hj1 : j = d.nextId := by
      rcases List.mem_cons.mp hj with h | h
      · exact h
      · exact List.eq_of_mem_replicate h
    subst hj1
    simp [await, jobFind]

/-- Witness for claim C1: three submits of `nda.pdf` against a fresh
dispatcher yield one job record and an AI-call total of a single worker
run. -/
theorem dispatcher_dedup_witness :
    2 ≤ 3 ∧
    regFind (Dispatcher.mk [] [] 0 0).inflight "nda.pdf" = none ∧
    (submitAll demoEnv 0 (List.replicate 3 "nda.pdf")
      (Dispatcher.mk [] [] 0 0)).2.jobs.length = 1 ∧
    (submitAll demoEnv 0 (List.replicate 3 "nda.pdf")
      (Dispatcher.mk [] [] 0 0)).2.totalAi =
      (runWorker demoEnv "nda.pdf" 0).2.ai :=
  ⟨by decide, rfl,
   (dispatcher_dedup_single_execution demoEnv 0 (Dispatcher.mk [] [] 0 0)
      "nda.pdf" 3 (by decide) rfl).2.1,
   (dispatcher_dedup_single_execution demoEnv 0 (Dispatcher.mk [] [] 0 0)
      "nda.pdf" 3 (by decide) rfl).2.2.1⟩

/-- Claim C7 counterexample: the spec's own example file key
`contracts/nda.pdf` contains the forbidden substring `/`, so the first
call is rejected by the Validator with 422 `VALIDATION_ERROR` — it is
not answered 200 with a verdict and `cache:false`. -/
theorem slash_key_first_call_rejected :
    (handleStatus emptyState demoEnv (demoReq "contracts/nda.pdf") 0).1 =
      ⟨422, .failure .VALIDATION_ERROR⟩ ∧
    (handleStatus emptyState demoEnv (demoReq "contracts/nda.pdf") 0).1.status
      ≠ 200 := by
  exact ⟨rfl, by decide⟩

/-- Claim C7 as amended: for a file key without path separators,
`nda.pdf`, with 1200 characters of extracted content, the first call
returns 200 with `cache:false` and a non-empty verdict, and the
immediate second call returns 200 with `cache:true` and the identical
verdict. -/
theorem pdf_key_two_calls :
    (handleStatus emptyState demoEnv (demoReq "nda.pdf") 0).1 =
      ⟨200, .success "Verdict: the agreement is lawful." false⟩ ∧
    "Verdict: the agreement is lawful." ≠ "" ∧
    (handleStatus (handleStatus emptyState demoEnv (demoReq "nda.pdf") 0).2.1
        demoEnv (demoReq "nda.pdf") 0).1 =
      ⟨200, .success "Verdict: the agreement is lawful." true⟩ := by
  refine ⟨rfl, by decide, rfl⟩

end LegalSummarizer
